import Mathlib

/-!
Verification of the `llm-context-gen` tool (src/main.rs) against its
natural-language specification.

The Rust program walks a source tree, classifies each regular file
(path-too-long / binary / too-large / normal), writes one artifact text
file per accepted file into an output directory, and appends lines to a
tree document.  We shallowly embed the per-file pipeline (`process_file`,
`is_binary_file`, `is_too_large`, `sanitize_filename`) and the driver loop
of `main` as pure Lean functions over an explicit model of the file system
outcomes (whether each I/O operation succeeds, the bytes read, the
metadata size).  Fallible Rust functions returning `io::Result` are
embedded as `Except IoErr`; the `?` operator of the call sites is embedded
as explicit error propagation.
-/

namespace LlmContextGen

/-- Placeholder for `std::io::Error`; the embedded classifiers never
construct one, which is the point of several theorems below. -/
inductive IoErr where
  | err
deriving Repr, DecidableEq

/-- Model of one regular file as seen by `process_file`: the name and
relative-path string, the outcome of each I/O operation the Rust code
performs on it, the bytes of the file, and its metadata size
(`none` models a failing `fs::metadata` call).

`openOk1` is the `File::open` inside `is_binary_file`; `openOk2` is the
second, independent `File::open` in `process_file` (the same file is
opened twice by the source, and the two opens can differ). -/
structure FileModel where
  fileName : String
  relPathStr : String
  openOk1 : Bool
  readPrefixOk : Bool
  content : List Nat
  openOk2 : Bool
  readToStringOk : Bool
  metadata : Option Nat
  createOutOk : Bool
  writeHeaderOk : Bool
  writeBlankOk : Bool
  writeContentOk : Bool
deriving Repr, DecidableEq

/-- Rust `Path::extension` restricted to a file name: the portion after
the last `.`, unless there is no dot or the only dot is the leading
character (so `"photo.png"` gives `some "png"`, `".gitignore"` gives
`none`, `"noext"` gives `none`). -/
def extension_of (fileName : String) : Option String :=
  let cs := fileName.toList
  let rev := cs.reverse
  match rev.findIdx? (fun c => c = '.') with
  | none => none
  | some i =>
    if i + 1 = cs.length then none
    else some (String.mk (rev.take i).reverse)

/-- Rust `str::to_lowercase` as applied to extension strings, embedded
as a per-character `Char.toLower` map; this is exact for deciding
membership in the ASCII-only denylist below. -/
def to_lowercase (s : String) : String :=
  String.mk (s.toList.map Char.toLower)

/-- The fixed denylist of binary extensions from `is_binary_file`
(src/main.rs lines 308-314), verbatim. -/
def binary_extensions : List String :=
  ["png", "jpg", "jpeg", "gif", "bmp", "tiff",
   "pdf", "doc", "docx", "xls", "xlsx", "ppt", "pptx",
   "zip", "tar", "gz", "rar", "7z",
   "exe", "dll", "so", "dylib", "bin",
   "mp3", "mp4", "wav", "avi", "mov"]

/-- Embedding of `is_binary_file` (src/main.rs lines 280-321).
Branches in source order: open failure returns `Ok(true)`; read failure
returns `Ok(true)`; zero bytes read returns `Ok(false)`; a null byte in
the first 8192 bytes returns `Ok(true)`; otherwise the lowercased
extension is looked up in the denylist.  Every branch returns `Ok`. -/
def is_binary_file (f : FileModel) : Except IoErr Bool :=
  if !f.openOk1 then .ok true
  else if !f.readPrefixOk then .ok true
  else if (f.content.take 8192).length = 0 then .ok false
  else if (f.content.take 8192).any (fun b => b = 0) then .ok true
  else if binary_extensions.contains
      (to_lowercase ((extension_of f.fileName).getD "")) then .ok true
  else .ok false

/-- Embedding of `is_too_large` (src/main.rs lines 323-336): metadata
size strictly above 1,000,000 bytes means too large; a metadata error is
absorbed into `Ok(false)`. -/
def is_too_large (f : FileModel) : Except IoErr Bool :=
  match f.metadata with
  | some len => .ok (decide (1000000 < len))
  | none => .ok false

/-- The boolean the caller of `is_binary_file` observes after `?`
(defaulting arbitrarily on the never-taken error branch). -/
def is_binary_fileB (f : FileModel) : Bool :=
  match is_binary_file f with
  | .ok b => b
  | .error _ => false

/-- The boolean the caller of `is_too_large` observes after `?`
(defaulting arbitrarily on the never-taken error branch). -/
def is_too_largeB (f : FileModel) : Bool :=
  match is_too_large f with
  | .ok b => b
  | .error _ => false

/-- Embedding of `sanitize_filename` (src/main.rs lines 271-278):
replace `/` with `_`, then `\` with `_` (Rust `str::replace` with a
one-character pattern is exactly a per-character map), then keep the
first 150 characters. -/
def sanitize_filename (path : String) : String :=
  String.mk
    (((path.toList.map (fun c => if c = '/' then '_' else c)).map
      (fun c => if c = '\\' then '_' else c)).take 150)

/-- The full target path of an artifact: `output_dir.join(format!("{}.txt",
safe_filename))` from src/main.rs line 234, with `join` embedded as
slash concatenation. -/
def output_file_path (outputDir relPath : String) : String :=
  outputDir ++ "/" ++ sanitize_filename relPath ++ ".txt"

/-- One line kind of the tree document (`file-tree.txt`).  The document
also begins with a root line `.` written before the loop, which we leave
implicit since no claim concerns it. -/
inductive TreeOut where
  | deeplyNested
  | dirLine
  | fileTooLong
  | fileBinaryOrLarge
  | fileReadError
  | fileAccepted
deriving Repr, DecidableEq

/-- The observable effect of one `process_file` call: which tree line (if
any) it appended, and the path of the artifact file it created on disk
(if `File::create` succeeded), which may still be partially written. -/
structure ProcOutcome where
  treeLine : Option TreeOut
  artifact : Option String
deriving Repr, DecidableEq

/-- Embedding of `process_file` (src/main.rs lines 191-269).  Checks in
source order: the relative path's textual byte length above 200
short-circuits to a skipped line before any file I/O; then
`is_binary_file(path)? || is_too_large(path)?` with explicit `?`
propagation; then the second open (silent early return on failure),
`read_to_string` (skipped-error-reading line on failure), output-file
creation and the header and blank-line writes (each failure returns
early, before the tree line is written), and finally the content write,
whose failure is only logged, after which the accepted tree line is
written.  Writes to `file_tree` itself are modelled as succeeding. -/
def process_file (f : FileModel) (outputDir : String) :
    Except IoErr ProcOutcome :=
  if 200 < f.relPathStr.utf8ByteSize then
    .ok { treeLine := some .fileTooLong, artifact := none }
  else
    match is_binary_file f with
    | .error e => .error e
    | .ok b =>
      match is_too_large f with
      | .error e => .error e
      | .ok l =>
        if b || l then
          .ok { treeLine := some .fileBinaryOrLarge, artifact := none }
        else if !f.openOk2 then
          .ok { treeLine := none, artifact := none }
        else if !f.readToStringOk then
          .ok { treeLine := some .fileReadError, artifact := none }
        else if !f.createOutOk then
          .ok { treeLine := none, artifact := none }
        else if !f.writeHeaderOk then
          .ok { treeLine := none,
                artifact := some (output_file_path outputDir f.relPathStr) }
        else if !f.writeBlankOk then
          .ok { treeLine := none,
                artifact := some (output_file_path outputDir f.relPathStr) }
        else
          .ok { treeLine := some .fileAccepted,
                artifact := some (output_file_path outputDir f.relPathStr) }

/-- The outcome the caller of `process_file` observes after `?`
(defaulting arbitrarily on the never-taken error branch). -/
def process_fileP (f : FileModel) (outputDir : String) : ProcOutcome :=
  match process_file f outputDir with
  | .ok o => o
  | .error _ => { treeLine := none, artifact := none }

/-- The built-in ignore names inserted into `default_ignores`
(src/main.rs lines 67-82), verbatim. -/
def default_ignores : List String :=
  ["node_modules", "target", "dist", "build", ".git", ".idea", ".vscode",
   "__pycache__", ".next", "out", "coverage", ".vercel", ".turbo"]

/-- The effective ignore set: built-in names plus the user-supplied
names (src/main.rs lines 84-89). -/
def effective_ignores (userIgnores : List String) : List String :=
  default_ignores ++ userIgnores

/-- What kind of filesystem node a walker entry is, carrying the data
the loop body needs: a directory carries its relative-path component
count (used for the deeply-nested check), a regular file carries its
`FileModel`.  `other` covers entries that are neither (`is_dir` and
`is_file` both false, e.g. broken symlinks), for which the loop body
does nothing. -/
inductive EntryKind where
  | dir (relCompCount : Nat)
  | file (f : FileModel)
  | other
deriving Repr, DecidableEq

/-- One `Ok` entry yielded by the walker: the component names of its
absolute path (checked against the ignore set), whether it lies under
the output directory (`path.starts_with(output_dir)`), whether a
relative path could be determined (`strip_prefix` succeeded or the
fallback `file_name` existed — when false the loop `continue`s), and
its kind. -/
structure RawEntry where
  pathComponents : List String
  underOutput : Bool
  relResolved : Bool
  kind : EntryKind
deriving Repr, DecidableEq

/-- One item yielded by the walker iterator: an entry or an error (the
`Err` arm only logs and continues). -/
inductive WalkItem where
  | ok (e : RawEntry)
  | err
deriving Repr, DecidableEq

/-- The run parameters the loop consults. -/
structure Config where
  ignores : List String
  maxFiles : Nat
  outputDir : String

/-- The mutable state of the loop in `main`: the processed-file counter
`file_count`, the tree-document entry lines written so far, the artifact
files created so far (by target path), how many times the terminal
maximum-file-limit notice has been written, and whether the loop has
`break`-ed. -/
structure LoopState where
  fileCount : Nat
  treeLines : List TreeOut
  artifacts : List String
  noticeCount : Nat
  done : Bool
deriving Repr, DecidableEq

/-- The state before the first iteration. -/
def initState : LoopState :=
  { fileCount := 0, treeLines := [], artifacts := [], noticeCount := 0,
    done := false }

/-- One iteration of the walker loop in `main` (src/main.rs lines
113-184), in source order: once `break`-ed nothing further happens; if
`file_count >= max_files` the terminal notice is written and the loop
breaks; an `Err` item only logs; an entry under the output directory,
with a path component in the ignore set, or without a determinable
relative path is silently skipped; a directory whose relative component
count exceeds 20 gets the deeply-nested line, otherwise a directory
line; a regular file goes through `process_file` (with `?` propagation
elided: `process_file` never errors, `process_file_ok` below) and then
`file_count` is incremented unconditionally. -/
def stepEntry (cfg : Config) (st : LoopState) (it : WalkItem) : LoopState :=
  if st.done then st
  else if cfg.maxFiles ≤ st.fileCount then
    { st with noticeCount := st.noticeCount + 1, done := true }
  else
    match it with
    | .err => st
    | .ok e =>
      if e.underOutput then st
      else if e.pathComponents.any (fun n => cfg.ignores.contains n) then st
      else if !e.relResolved then st
      else
        match e.kind with
        | .dir relCompCount =>
          if 20 < relCompCount then
            { st with treeLines := st.treeLines ++ [.deeplyNested] }
          else
            { st with treeLines := st.treeLines ++ [.dirLine] }
        | .file f =>
          let o := process_fileP f cfg.outputDir
          { st with
            fileCount := st.fileCount + 1,
            treeLines := st.treeLines ++ o.treeLine.toList,
            artifacts := st.artifacts ++ o.artifact.toList }
        | .other => st

/-- The whole walker loop over the items the walker yields, in order. -/
def run (cfg : Config) (items : List WalkItem) : LoopState :=
  items.foldl (stepEntry cfg) initState

/-- The spec's own description of the artifact target path, for
comparison with `output_file_path`: take the relative path, replace both
forward- and backward-slash separators with underscore, truncate to 150
characters, append `.txt`, and place it directly inside the output
directory. -/
def spec_target_file_path (outputDir relPath : String) : String :=
  outputDir ++ "/" ++
    String.mk ((relPath.toList.map
      (fun c => if c = '/' || c = '\\' then '_' else c)).take 150) ++
    ".txt"

/-- A file "passes classification" when none of the three checks at the
top of `process_file` fires: the relative path is not over-long, the
binary check is false and the too-large check is false. -/
def passes_classification (f : FileModel) : Prop :=
  f.relPathStr.utf8ByteSize ≤ 200 ∧ is_binary_fileB f = false ∧
    is_too_largeB f = false

/-- Loop invariant of the walker loop: the counter never exceeds the
budget, at most one artifact exists per counted file, and the terminal
notice has been written exactly once if the loop has broken and never
otherwise. -/
def loopInv (cfg : Config) (st : LoopState) : Prop :=
  st.fileCount ≤ cfg.maxFiles ∧
  st.artifacts.length ≤ st.fileCount ∧
  st.noticeCount = (if st.done then 1 else 0)

/-- A file for which every I/O operation succeeds: `d/a.txt` with one
non-null content byte and a small metadata size. -/
def fAllOk : FileModel :=
  { fileName := "a.txt", relPathStr := "d/a.txt", openOk1 := true,
    readPrefixOk := true, content := [104], openOk2 := true,
    readToStringOk := true, metadata := some 9, createOutOk := true,
    writeHeaderOk := true, writeBlankOk := true, writeContentOk := true }

/-- Like `fAllOk` but with a 201-character relative path. -/
def fPathLong : FileModel :=
  { fAllOk with
    fileName := "x.txt",
    relPathStr := String.mk (List.replicate 201 'a') }

/-- An empty file named `photo.png`; every I/O operation succeeds. -/
def fPngEmpty : FileModel :=
  { fAllOk with
    fileName := "photo.png", relPathStr := "photo.png", content := [] }

/-- A file named `photo.png` holding two plain text bytes. -/
def fPngText : FileModel :=
  { fPngEmpty with content := [104, 105] }

/-- Like `fAllOk` but the header write to its artifact fails. -/
def fHeaderFail : FileModel :=
  { fAllOk with writeHeaderOk := false }

/-- Like `fAllOk` but its artifact file cannot be created. -/
def fCreateFail : FileModel :=
  { fAllOk with createOutOk := false }

/-- Walker entry for `fAllOk`. -/
def eAllOk : RawEntry :=
  { pathComponents := ["d", "a.txt"], underOutput := false,
    relResolved := true, kind := .file fAllOk }

/-- Walker entry for `fPathLong`. -/
def ePathLong : RawEntry :=
  { eAllOk with kind := .file fPathLong }

/-- Walker entry for `fHeaderFail`. -/
def eHeaderFail : RawEntry :=
  { eAllOk with kind := .file fHeaderFail }

/-- Walker entry for a file under `node_modules`. -/
def eIgnored : RawEntry :=
  { eAllOk with pathComponents := ["node_modules", "b.js"] }

/-- A run configuration with no user ignores and the default budget. -/
def cfgA : Config :=
  { ignores := effective_ignores [], maxFiles := 2000, outputDir := "o" }

/-- A run configuration with a file budget of one. -/
def cfgB : Config :=
  { cfgA with maxFiles := 1 }

/-- Three processable files in a row, to exercise the budget of one. -/
def itemsB : List WalkItem :=
  [WalkItem.ok eAllOk, WalkItem.ok eAllOk, WalkItem.ok eAllOk]

/-! Helper lemmas shared by the claim theorems. -/

/-- Every branch of `is_binary_file` returns `Ok`; the observed boolean
is `is_binary_fileB`. -/
theorem is_binary_file_eq (f : FileModel) :
    is_binary_file f = Except.ok (is_binary_fileB f) := by
  cases h : is_binary_file f with
  | ok b => simp [is_binary_fileB, h]
  | error e =>
    exfalso
    unfold is_binary_file at h
    repeat' split at h
    all_goals exact Except.noConfusion h

/-- Every branch of `is_too_large` returns `Ok`; the observed boolean is
`is_too_largeB`. -/
theorem is_too_large_eq (f : FileModel) :
    is_too_large f = Except.ok (is_too_largeB f) := by
  cases h : is_too_large f with
  | ok b => simp [is_too_largeB, h]
  | error e =>
    exfalso
    unfold is_too_large at h
    split at h
    all_goals exact Except.noConfusion h

/-- `process_file` never propagates an error: both classifier calls it
makes with `?` return `Ok`, so it returns `Ok (process_fileP f out)`. -/
theorem process_file_eq (f : FileModel) (out : String) :
    process_file f out = Except.ok (process_fileP f out) := by
  cases h : process_file f out with
  | ok o => simp [process_fileP, h]
  | error e =>
    exfalso
    unfold process_file at h
    rw [is_binary_file_eq, is_too_large_eq] at h
    simp only [] at h
    repeat' split at h
    all_goals exact Except.noConfusion h

/-- Characterization of `process_fileP` as a pure decision chain, the
`?`-free reading of `process_file` justified by `is_binary_file_eq` and
`is_too_large_eq`. -/
theorem process_fileP_eq (f : FileModel) (out : String) :
    process_fileP f out =
      if 200 < f.relPathStr.utf8ByteSize then
        { treeLine := some TreeOut.fileTooLong, artifact := none }
      else if is_binary_fileB f || is_too_largeB f then
        { treeLine := some TreeOut.fileBinaryOrLarge, artifact := none }
      else if !f.openOk2 then { treeLine := none, artifact := none }
      else if !f.readToStringOk then
        { treeLine := some TreeOut.fileReadError, artifact := none }
      else if !f.createOutOk then { treeLine := none, artifact := none }
      else if !f.writeHeaderOk then
        { treeLine := none,
          artifact := some (output_file_path out f.relPathStr) }
      else if !f.writeBlankOk then
        { treeLine := none,
          artifact := some (output_file_path out f.relPathStr) }
      else
        { treeLine := some TreeOut.fileAccepted,
          artifact := some (output_file_path out f.relPathStr) } := by
  unfold process_fileP process_file
  rw [is_binary_file_eq, is_too_large_eq]
  by_cases h1 : 200 < f.relPathStr.utf8ByteSize
  · simp [h1]
  · cases h2 : is_binary_fileB f <;> cases h3 : is_too_largeB f <;>
      cases h4 : f.openOk2 <;> cases h5 : f.readToStringOk <;>
      cases h6 : f.createOutOk <;> cases h7 : f.writeHeaderOk <;>
      cases h8 : f.writeBlankOk <;>
      simp [h1, h2, h3, h4, h5, h6, h7, h8]

/-- The only artifact path `process_file` ever creates is
`output_file_path outputDir relPathStr`. -/
theorem process_fileP_artifact (f : FileModel) (out : String) :
    (process_fileP f out).artifact = none ∨
    (process_fileP f out).artifact =
      some (output_file_path out f.relPathStr) := by
  rw [process_fileP_eq]
  repeat' split
  all_goals simp

/-- The code's target-path computation agrees with the spec's
description of it. -/
theorem output_file_path_eq_spec (out rel : String) :
    output_file_path out rel = spec_target_file_path out rel := by
  unfold output_file_path spec_target_file_path sanitize_filename
  have hmap :
      (rel.toList.map (fun c => if c = '/' then '_' else c)).map
        (fun c => if c = '\\' then '_' else c) =
      rel.toList.map (fun c => if c = '/' || c = '\\' then '_' else c) := by
    rw [List.map_map]
    apply List.map_congr_left
    intro c _
    by_cases h1 : c = '/'
    · simp [h1, Function.comp]
    · by_cases h2 : c = '\\' <;> simp [h1, h2, Function.comp]
  rw [hmap]

/-- Once the loop has broken, every further item leaves the state
untouched. -/
theorem stepEntry_done (cfg : Config) (st : LoopState) (it : WalkItem)
    (h : st.done = true) : stepEntry cfg st it = st := by
  unfold stepEntry
  simp [h]

/-- When the loop has not broken and the budget is exhausted, the next
item (whatever it is) triggers the terminal notice once and breaks the
loop, leaving counter, tree lines and artifacts untouched. -/
theorem stepEntry_exhausted (cfg : Config) (st : LoopState) (it : WalkItem)
    (hd : st.done = false) (hb : cfg.maxFiles ≤ st.fileCount) :
    stepEntry cfg st it =
      { st with noticeCount := st.noticeCount + 1, done := true } := by
  unfold stepEntry
  simp [hd, hb]

/-- Every `stepEntry` call has one of four effects: nothing, the
terminal-notice-and-break (only when the loop is live and the budget is
exhausted), one directory tree line, or one processed file (only within
budget). -/
theorem stepEntry_cases (cfg : Config) (st : LoopState) (it : WalkItem) :
    stepEntry cfg st it = st ∨
    (st.done = false ∧ cfg.maxFiles ≤ st.fileCount ∧
      stepEntry cfg st it =
        { st with noticeCount := st.noticeCount + 1, done := true }) ∨
    (∃ l, stepEntry cfg st it =
        { st with treeLines := st.treeLines ++ [l] }) ∨
    (∃ f, st.fileCount < cfg.maxFiles ∧
      stepEntry cfg st it =
        { st with
          fileCount := st.fileCount + 1,
          treeLines := st.treeLines ++
            (process_fileP f cfg.outputDir).treeLine.toList,
          artifacts := st.artifacts ++
            (process_fileP f cfg.outputDir).artifact.toList }) := by
  unfold stepEntry
  repeat' split
  all_goals try exact Or.inl rfl
  · rename_i hdone hb
    refine Or.inr (Or.inl ⟨?_, hb, rfl⟩)
    simpa using hdone
  · exact Or.inr (Or.inr (Or.inl ⟨TreeOut.deeplyNested, rfl⟩))
  · exact Or.inr (Or.inr (Or.inl ⟨TreeOut.dirLine, rfl⟩))
  · rename_i sc f heq
    have hb : ¬ cfg.maxFiles ≤ st.fileCount := by assumption
    exact Or.inr (Or.inr (Or.inr ⟨f, Nat.lt_of_not_le hb, rfl⟩))

/-- `stepEntry` preserves the loop invariant. -/
theorem loopInv_step (cfg : Config) (st : LoopState) (it : WalkItem)
    (h : loopInv cfg st) : loopInv cfg (stepEntry cfg st it) := by
  obtain ⟨h1, h2, h3⟩ := h
  rcases stepEntry_cases cfg st it with heq | ⟨hd, hb, heq⟩ | ⟨l, heq⟩ |
    ⟨f, hlt, heq⟩ <;> rw [heq]
  · exact ⟨h1, h2, h3⟩
  · refine ⟨h1, h2, ?_⟩
    rw [hd] at h3
    simp at h3
    simp [h3]
  · exact ⟨h1, h2, h3⟩
  · refine ⟨hlt, ?_, h3⟩
    simp only [List.length_append]
    have ha : (process_fileP f cfg.outputDir).artifact.toList.length ≤ 1 := by
      cases (process_fileP f cfg.outputDir).artifact <;> simp
    omega

/-- The loop invariant holds after running the whole loop. -/
theorem run_inv (cfg : Config) (items : List WalkItem) :
    loopInv cfg (run cfg items) := by
  unfold run
  have hgen : ∀ st : LoopState, loopInv cfg st →
      loopInv cfg (items.foldl (stepEntry cfg) st) := by
    induction items with
    | nil => intro st h; exact h
    | cons x xs ih =>
      intro st h
      exact ih _ (loopInv_step cfg st x h)
  apply hgen
  unfold loopInv initState
  exact ⟨Nat.zero_le _, Nat.le_refl 0, rfl⟩

/-! The claim theorems. -/

/-- C3, counterexample: the claim says every file with a denylisted
extension is classified Binary regardless of content, but an empty file
named `photo.png` (which opens and reads fine) is classified not-binary,
because the empty-file check precedes the extension check. -/
theorem c3_counterexample :
    extension_of fPngEmpty.fileName = some "png" ∧
    binary_extensions.contains
      (to_lowercase ((extension_of fPngEmpty.fileName).getD "")) = true ∧
    fPngEmpty.openOk1 = true ∧ fPngEmpty.readPrefixOk = true ∧
    fPngEmpty.content = [] ∧
    is_binary_fileB fPngEmpty = false := by
  refine ⟨by decide, by decide, rfl, rfl, rfl, by decide⟩

/-- C3, amended: for every file whose (lowercased) extension is in the
fixed binary denylist, the classifier returns Binary regardless of the
file's content, provided the file is not read as empty (open failure,
read failure, or at least one content byte); an empty file is classified
not-binary even with a denylisted extension. -/
theorem c3_denylist_binary_amended (f : FileModel)
    (hext : binary_extensions.contains
      (to_lowercase ((extension_of f.fileName).getD "")) = true)
    (hne : f.openOk1 = false ∨ f.readPrefixOk = false ∨ f.content ≠ []) :
    is_binary_fileB f = true := by
  unfold is_binary_fileB is_binary_file
  rcases hne with h | h | h
  · simp [h]
  · cases h1 : f.openOk1 <;> simp [h, h1]
  · cases h1 : f.openOk1
    · simp
    · cases h2 : f.readPrefixOk
      · simp
      · have hext' : to_lowercase ((extension_of f.fileName).getD "") ∈
            binary_extensions := by simpa using hext
        simp [h1, h2, h, hext']

/-- Witness for C3 amended: `photo.png` holding two plain text bytes is
classified Binary. -/
theorem c3_witness :
    binary_extensions.contains
      (to_lowercase ((extension_of fPngText.fileName).getD "")) = true ∧
    fPngText.content ≠ [] ∧
    is_binary_fileB fPngText = true :=
  ⟨by decide, by decide,
    c3_denylist_binary_amended fPngText (by decide)
      (Or.inr (Or.inr (by decide)))⟩

/-- C4: every file from which zero bytes are successfully read (open and
read both succeed, empty content) is classified not-binary. -/
theorem c4_empty_not_binary (f : FileModel)
    (h1 : f.openOk1 = true) (h2 : f.readPrefixOk = true)
    (h3 : f.content = []) :
    is_binary_fileB f = false := by
  unfold is_binary_fileB is_binary_file
  simp [h1, h2, h3]

/-- Witness for C4: the empty `photo.png` file. -/
theorem c4_witness :
    fPngEmpty.openOk1 = true ∧ fPngEmpty.readPrefixOk = true ∧
    fPngEmpty.content = [] ∧ is_binary_fileB fPngEmpty = false :=
  ⟨rfl, rfl, rfl, c4_empty_not_binary fPngEmpty rfl rfl rfl⟩

/-- C5: for every file whose relative path's textual length exceeds 200,
`process_file` produces the path-too-long skipped tree line and no
artifact — and since `f` is arbitrary in every I/O field, the outcome is
independent of whether the file could be opened or read, i.e. the check
short-circuits before any file I/O. -/
theorem c5_too_long_path (f : FileModel) (out : String)
    (h : 200 < f.relPathStr.utf8ByteSize) :
    process_fileP f out =
      { treeLine := some TreeOut.fileTooLong, artifact := none } := by
  rw [process_fileP_eq]
  simp [h]

set_option maxRecDepth 4000 in
/-- Witness for C5: a 201-character relative path. -/
theorem c5_witness :
    200 < fPathLong.relPathStr.utf8ByteSize ∧
    process_fileP fPathLong "o" =
      { treeLine := some TreeOut.fileTooLong, artifact := none } :=
  ⟨by decide, c5_too_long_path fPathLong "o" (by decide)⟩

/-- C9: the too-large check holds exactly when the metadata size exceeds
1,000,000 bytes; in particular a metadata failure (`metadata = none`)
never makes it hold, so a stat error alone cannot cause a too-large
skip. -/
theorem c9_too_large_iff (f : FileModel) :
    is_too_largeB f = true ↔
      ∃ n, f.metadata = some n ∧ 1000000 < n := by
  unfold is_too_largeB is_too_large
  cases h : f.metadata with
  | none => simp
  | some n => simp

/-- C10: the classification helpers never return an error (every I/O
failure inside them is absorbed into a boolean), so the
error-propagation branch at their call site in `process_file` is
unreachable and `process_file` itself always returns `Ok`. -/
theorem c10_classifiers_never_error (f : FileModel) (out : String) :
    (is_binary_file f).isOk = true ∧ (is_too_large f).isOk = true ∧
    (process_file f out).isOk = true := by
  rw [is_binary_file_eq, is_too_large_eq, process_file_eq]
  exact ⟨rfl, rfl, rfl⟩

set_option maxRecDepth 4000 in
/-- C1, counterexample: a run whose only entry is a regular file skipped
as path-too-long (no artifact, skipped tree line) still ends with the
processed-file counter at 1: the counter is incremented for every file
handed to `process_file`, not only for files reaching the success
path. -/
theorem c1_counterexample :
    (process_fileP fPathLong cfgA.outputDir).treeLine =
      some TreeOut.fileTooLong ∧
    (process_fileP fPathLong cfgA.outputDir).artifact = none ∧
    (run cfgA [WalkItem.ok ePathLong]).fileCount = 1 := by
  refine ⟨by decide, by decide, by decide⟩

/-- C1, amended: the counter increments exactly once for every regular
file the loop hands to `process_file` (live loop, budget not exhausted,
not under the output directory, no ignored component, relative path
resolvable), regardless of whether the file reaches the success path. -/
theorem c1_counter_amended (cfg : Config) (st : LoopState) (e : RawEntry)
    (f : FileModel) (hk : e.kind = EntryKind.file f)
    (hdone : st.done = false) (hbudget : st.fileCount < cfg.maxFiles)
    (hout : e.underOutput = false)
    (hig : (e.pathComponents.any fun n => cfg.ignores.contains n) = false)
    (hrel : e.relResolved = true) :
    (stepEntry cfg st (WalkItem.ok e)).fileCount = st.fileCount + 1 := by
  unfold stepEntry
  have hig' : ¬ ∃ x ∈ e.pathComponents, x ∈ cfg.ignores := by
    simpa using hig
  simp [hdone, hout, hig', hrel, hk, Nat.not_le.mpr hbudget]

set_option maxRecDepth 4000 in
/-- Witness for C1 amended: the same path-too-long file as in the
counterexample increments the counter from 0 to 1. -/
theorem c1_witness :
    ePathLong.kind = EntryKind.file fPathLong ∧
    initState.done = false ∧ initState.fileCount < cfgA.maxFiles ∧
    (stepEntry cfgA initState (WalkItem.ok ePathLong)).fileCount =
      initState.fileCount + 1 :=
  ⟨rfl, rfl, by decide,
    c1_counter_amended cfgA initState ePathLong fPathLong rfl rfl
      (by decide) rfl (by decide) rfl⟩

/-- C2, counterexample: a file that passes classification, opens and
reads fine, whose artifact file is created but whose header write fails,
yields an artifact file on disk and NO tree line — refuting both that
the tree line is written whenever the source file could be opened, and
that the number of artifact files equals the number of accepted tree
lines (here 1 artifact, 0 tree lines). -/
theorem c2_counterexample :
    passes_classification fHeaderFail ∧
    fHeaderFail.openOk2 = true ∧ fHeaderFail.readToStringOk = true ∧
    fHeaderFail.createOutOk = true ∧ fHeaderFail.writeHeaderOk = false ∧
    (process_fileP fHeaderFail cfgA.outputDir).treeLine = none ∧
    (process_fileP fHeaderFail cfgA.outputDir).artifact =
      some (output_file_path cfgA.outputDir fHeaderFail.relPathStr) ∧
    (run cfgA [WalkItem.ok eHeaderFail]).artifacts.length = 1 ∧
    (run cfgA [WalkItem.ok eHeaderFail]).treeLines = [] := by
  refine ⟨⟨by decide, by decide, by decide⟩, rfl, rfl, rfl, rfl,
    by decide, by decide, by decide, by decide⟩

/-- C2, amended: for every regular file that passes classification, if
the source file cannot be opened then neither an artifact nor a tree
line is produced; if it opens and reads but the artifact file cannot be
created then again neither is produced; if the artifact file is created
but its header line cannot be written, or the header succeeds and the
blank line cannot be written, the artifact file exists on disk and no
tree line is produced; and when creation, header and blank-line writes
all succeed the accepted tree line is written and the artifact exists
regardless of whether writing the content succeeded (`writeContentOk`
is unconstrained). -/
theorem c2_tree_line_amended (f : FileModel) (out : String)
    (h : passes_classification f) :
    (f.openOk2 = false →
      process_fileP f out = { treeLine := none, artifact := none }) ∧
    (f.openOk2 = true → f.readToStringOk = true → f.createOutOk = false →
      process_fileP f out = { treeLine := none, artifact := none }) ∧
    (f.openOk2 = true → f.readToStringOk = true → f.createOutOk = true →
      f.writeHeaderOk = false →
      process_fileP f out =
        { treeLine := none,
          artifact := some (output_file_path out f.relPathStr) }) ∧
    (f.openOk2 = true → f.readToStringOk = true → f.createOutOk = true →
      f.writeHeaderOk = true → f.writeBlankOk = false →
      process_fileP f out =
        { treeLine := none,
          artifact := some (output_file_path out f.relPathStr) }) ∧
    (f.openOk2 = true → f.readToStringOk = true → f.createOutOk = true →
      f.writeHeaderOk = true → f.writeBlankOk = true →
      process_fileP f out =
        { treeLine := some TreeOut.fileAccepted,
          artifact := some (output_file_path out f.relPathStr) }) := by
  obtain ⟨hp, hbin, hlarge⟩ := h
  rw [process_fileP_eq]
  refine ⟨?_, ?_, ?_, ?_, ?_⟩ <;> intros <;>
    simp [Nat.not_lt.mpr hp, hbin, hlarge, *]

/-- Witness for C2 amended: the all-success file yields the accepted
tree line and its artifact. -/
theorem c2_witness :
    passes_classification fAllOk ∧
    (fAllOk.openOk2 = false →
      process_fileP fAllOk "o" = { treeLine := none, artifact := none }) ∧
    (fAllOk.openOk2 = true → fAllOk.readToStringOk = true →
      fAllOk.createOutOk = false →
      process_fileP fAllOk "o" = { treeLine := none, artifact := none }) ∧
    (fAllOk.openOk2 = true → fAllOk.readToStringOk = true →
      fAllOk.createOutOk = true → fAllOk.writeHeaderOk = false →
      process_fileP fAllOk "o" =
        { treeLine := none,
          artifact := some (output_file_path "o" fAllOk.relPathStr) }) ∧
    (fAllOk.openOk2 = true → fAllOk.readToStringOk = true →
      fAllOk.createOutOk = true → fAllOk.writeHeaderOk = true →
      fAllOk.writeBlankOk = false →
      process_fileP fAllOk "o" =
        { treeLine := none,
          artifact := some (output_file_path "o" fAllOk.relPathStr) }) ∧
    (fAllOk.openOk2 = true → fAllOk.readToStringOk = true →
      fAllOk.createOutOk = true → fAllOk.writeHeaderOk = true →
      fAllOk.writeBlankOk = true →
      process_fileP fAllOk "o" =
        { treeLine := some TreeOut.fileAccepted,
          artifact := some (output_file_path "o" fAllOk.relPathStr) }) :=
  ⟨⟨by decide, by decide, by decide⟩,
    c2_tree_line_amended fAllOk "o" ⟨by decide, by decide, by decide⟩⟩

/-- C6: an entry any of whose path components is in the effective ignore
set (built-in names plus user-supplied names) contributes no tree line,
no artifact and no counter change — it is silently skipped. -/
theorem c6_ignored_silent (cfg : Config) (st : LoopState) (e : RawEntry)
    (u : List String) (hcfg : cfg.ignores = effective_ignores u)
    (hig : (e.pathComponents.any
      fun n => (effective_ignores u).contains n) = true) :
    (stepEntry cfg st (WalkItem.ok e)).treeLines = st.treeLines ∧
    (stepEntry cfg st (WalkItem.ok e)).artifacts = st.artifacts ∧
    (stepEntry cfg st (WalkItem.ok e)).fileCount = st.fileCount := by
  unfold stepEntry
  rw [hcfg]
  by_cases hd : st.done = true
  · simp [hd]
  · by_cases hb : cfg.maxFiles ≤ st.fileCount
    · simp [hd, hb]
    · by_cases ho : e.underOutput = true
      · simp [hd, hb, ho]
      · have hig' : ∃ x ∈ e.pathComponents, x ∈ effective_ignores u := by
          simpa using hig
        simp [hd, hb, ho, hig']

/-- Witness for C6: a file under `node_modules` with no user ignores. -/
theorem c6_witness :
    cfgA.ignores = effective_ignores [] ∧
    (eIgnored.pathComponents.any
      fun n => (effective_ignores []).contains n) = true ∧
    (stepEntry cfgA initState (WalkItem.ok eIgnored)).treeLines =
      initState.treeLines ∧
    (stepEntry cfgA initState (WalkItem.ok eIgnored)).artifacts =
      initState.artifacts ∧
    (stepEntry cfgA initState (WalkItem.ok eIgnored)).fileCount =
      initState.fileCount :=
  ⟨rfl, by decide,
    c6_ignored_silent cfgA initState eIgnored [] rfl (by decide)⟩

/-- C7: with max-files = N, every run creates at most N artifacts and
writes the terminal maximum-file-limit notice at most once — exactly
once whenever the loop actually broke; a live loop whose budget is
exhausted writes the notice once on the very next item and breaks, and
once broken, no further entries are processed at all. -/
theorem c7_budget (cfg : Config) (items : List WalkItem) :
    (run cfg items).artifacts.length ≤ cfg.maxFiles ∧
    (run cfg items).noticeCount ≤ 1 ∧
    ((run cfg items).done = true → (run cfg items).noticeCount = 1) ∧
    (∀ st it, st.done = false → cfg.maxFiles ≤ st.fileCount →
      (stepEntry cfg st it).noticeCount = st.noticeCount + 1 ∧
      (stepEntry cfg st it).done = true) ∧
    (∀ st it, st.done = true → stepEntry cfg st it = st) := by
  obtain ⟨h1, h2, h3⟩ := run_inv cfg items
  refine ⟨le_trans h2 h1, ?_, ?_, ?_, ?_⟩
  · rw [h3]
    split <;> omega
  · intro hd
    rw [h3]
    simp [hd]
  · intro st it hd hb
    rw [stepEntry_exhausted cfg st it hd hb]
    exact ⟨rfl, rfl⟩
  · exact fun st it hd => stepEntry_done cfg st it hd

/-- Witness for C7: a budget of one against three processable files. -/
theorem c7_witness :
    (run cfgB itemsB).artifacts.length ≤ cfgB.maxFiles ∧
    (run cfgB itemsB).noticeCount ≤ 1 ∧
    ((run cfgB itemsB).done = true → (run cfgB itemsB).noticeCount = 1) ∧
    (∀ st it, st.done = false → cfgB.maxFiles ≤ st.fileCount →
      (stepEntry cfgB st it).noticeCount = st.noticeCount + 1 ∧
      (stepEntry cfgB st it).done = true) ∧
    (∀ st it, st.done = true → stepEntry cfgB st it = st) :=
  c7_budget cfgB itemsB

/-- C8: every artifact `process_file` creates has exactly the target
path the spec describes: relative path with both slash kinds replaced by
underscores, truncated to 150 characters, suffixed `.txt`, directly
inside the output directory. -/
theorem c8_target_filename (f : FileModel) (out p : String)
    (h : (process_fileP f out).artifact = some p) :
    p = spec_target_file_path out f.relPathStr := by
  rcases process_fileP_artifact f out with hn | hs
  · rw [hn] at h
    exact Option.noConfusion h
  · rw [hs] at h
    injection h with h'
    rw [← h']
    exact output_file_path_eq_spec out f.relPathStr

/-- Witness for C8: the all-success file's artifact path matches the
spec formula. -/
theorem c8_witness :
    (process_fileP fAllOk "o").artifact =
      some (output_file_path "o" fAllOk.relPathStr) ∧
    output_file_path "o" fAllOk.relPathStr =
      spec_target_file_path "o" fAllOk.relPathStr :=
  ⟨by decide,
    c8_target_filename fAllOk "o" (output_file_path "o" fAllOk.relPathStr)
      (by decide)⟩

end LlmContextGen
